import Mathlib

/-!
# Verification of the say-cheese viewfinder core (src/say-cheese.js)

Shallow embedding of the region tracker (`initDynamicViewfinder`: the
`start` / `stop` / `draw` event handlers over the closure variables
`isDragging` and `box`), the snapshot extractor (`takeSnapshot`), the
constructor (`SayCheese`) and `stop`.

JavaScript numbers that can be `undefined` (absent object fields) or `NaN`
are modelled as `Option Int`: `none` stands for a non-finite value
(`undefined` or `NaN`).  This is faithful for every numeric operation the
source performs on them: subtraction, `Math.min`, and `Math.abs` all map
`undefined`/`NaN` to `NaN`, and assigning a non-finite number to a canvas
dimension yields `0`.
-/

/-- JS subtraction lifted to possibly-non-finite numbers
(`x - undefined = NaN`, `x - NaN = NaN`). -/
def jsSub (a b : Option Int) : Option Int :=
  match a, b with
  | some x, some y => some (x - y)
  | _, _ => none

/-- `Math.min` lifted to possibly-non-finite numbers (`min` with `NaN` is `NaN`). -/
def jsMin (a b : Option Int) : Option Int :=
  match a, b with
  | some x, some y => some (min x y)
  | _, _ => none

/-- `Math.abs` lifted to possibly-non-finite numbers. -/
def jsAbs (a : Option Int) : Option Int :=
  match a with
  | some x => some (x.natAbs : Int)
  | none => none

/-- Assigning a number to `canvas.width` / `canvas.height`: a non-finite
value becomes `0`; the values assigned by the source are `Math.abs` results,
hence never negative. -/
def toCanvasSize (a : Option Int) : Nat :=
  match a with
  | some x => x.toNat
  | none => 0

/-- The viewfinder rectangle / drag box object.  The source initialises the
drag box as the empty object literal `{}`, so every field starts out
`undefined` (`none`); `initDefaultViewfinder` produces an object with all six
fields set. -/
structure Box where
  startX : Option Int
  startY : Option Int
  endX : Option Int
  endY : Option Int
  width : Option Int
  height : Option Int
deriving DecidableEq, Repr

/-- The empty object literal `{}` used for the drag box. -/
def emptyBox : Box :=
  { startX := none, startY := none, endX := none, endY := none
    width := none, height := none }

/-- `initDefaultViewfinder`: the full-surface rectangle built from the video
element's offsetWidth/offsetHeight. -/
def defaultViewfinder (w h : Int) : Box :=
  { startX := some 0, startY := some 0, endX := some w, endY := some h
    width := some w, height := some h }

/-- A source frame: a pixel buffer of known size (the live video frame). -/
structure Frame where
  width : Nat
  height : Nat
  pixel : Nat → Nat → Nat

/-- A snapshot: the freshly created canvas of `takeSnapshot`.  Its bitmap
starts fully transparent (`none`) and `drawImage` paints some pixels. -/
structure Snapshot where
  width : Nat
  height : Nat
  pixel : Nat → Nat → Option Nat

/-- `ctx.drawImage(source, sx, sy, w, h, 0, 0, w, h)` on a fresh `w × h`
canvas, per the HTML canvas specification with equal source and destination
extents (no scaling): the source rectangle is clipped to the bounds of the
source image, a non-finite coordinate paints nothing, and unpainted
destination pixels stay transparent. -/
def drawImageNoScale (f : Frame) (sx sy : Option Int) (w h : Nat) :
    Nat → Nat → Option Nat :=
  fun dx dy =>
    match sx, sy with
    | some sxv, some syv =>
        if dx < w ∧ dy < h ∧
            0 ≤ sxv + dx ∧ sxv + (dx : Int) < f.width ∧
            0 ≤ syv + dy ∧ syv + (dy : Int) < f.height then
          some (f.pixel (sxv + dx).toNat (syv + dy).toNat)
        else
          none
    | _, _ => none

/-- `takeSnapshot`, cropping part: create a canvas whose width/height are
`Math.abs(viewfinder.width)` / `Math.abs(viewfinder.height)` and draw the
source at origin `(min(startX, endX), min(startY, endY))` into it. -/
def takeSnapshot (f : Frame) (r : Box) : Snapshot :=
  { width := toCanvasSize (jsAbs r.width)
    height := toCanvasSize (jsAbs r.height)
    pixel := drawImageNoScale f (jsMin r.startX r.endX) (jsMin r.startY r.endY)
      (toCanvasSize (jsAbs r.width)) (toCanvasSize (jsAbs r.height)) }

namespace DynamicViewfinder

/-- The pointer events handled by `initDynamicViewfinder`'s listeners
(`mousedown`/`touchstart` → `beginDrag`, `mousemove`/`touchmove` →
`updateDrag`, `mouseup`/`touchend` → `endDrag`), each carrying the
surface-local coordinates computed by `eventCoords`. -/
inductive DragEv where
  | beginDrag : Int → Int → DragEv
  | updateDrag : Int → Int → DragEv
  | endDrag : Int → Int → DragEv
deriving DecidableEq, Repr

/-- The tracker state: the closure variables `isDragging` and `box`, plus
`this.viewfinder`.  In the source `this.viewfinder` is an object reference:
`viewfinderRef = some r` means it points at an object of its own (the
default viewfinder, or the literal installed by `resetViewfinder`), while
`viewfinderRef = none` means `this.viewfinder === box` — the aliasing
created by `this.viewfinder = box` in the `stop` handler.  `changeCount`
counts the `change` notifications emitted so far. -/
structure TrackerState where
  isDragging : Bool
  box : Box
  viewfinderRef : Option Box
  changeCount : Nat
deriving DecidableEq, Repr

/-- The object currently observed through `this.viewfinder` (dereferencing
the alias when `viewfinderRef = none`). -/
def TrackerState.viewfinder (st : TrackerState) : Box :=
  st.viewfinderRef.getD st.box

/-- The tracker right after `setupCanvas`: `isDragging = false`, `box = {}`,
and `this.viewfinder` set by `initDefaultViewfinder` to the full surface. -/
def initTracker (w h : Int) : TrackerState :=
  { isDragging := false, box := emptyBox
    viewfinderRef := some (defaultViewfinder w h), changeCount := 0 }

/-- One event dispatch.  `beginDrag` is the `start` handler: it writes
`box.startX/startY` and sets `isDragging`, unconditionally.  `updateDrag`
is the `draw` handler: when `isDragging` it recomputes `box.width/height`
from the current point and `box.startX/startY`.  `endDrag` is the `stop`
handler: it clears `isDragging`, writes `box.endX/endY`, assigns
`this.viewfinder = box` (creating the alias) and triggers `change` —
all of this without checking whether a drag was active. -/
def step (st : TrackerState) : DragEv → TrackerState
  | .beginDrag x y =>
      { st with
        box := { st.box with startX := some x, startY := some y }
        isDragging := true }
  | .updateDrag x y =>
      if st.isDragging then
        { st with
          box := { st.box with
            width := jsSub (some x) st.box.startX
            height := jsSub (some y) st.box.startY } }
      else st
  | .endDrag x y =>
      { st with
        isDragging := false
        box := { st.box with endX := some x, endY := some y }
        viewfinderRef := none
        changeCount := st.changeCount + 1 }

/-- Dispatch a sequence of pointer events in order. -/
def runEvents (es : List DragEv) (st : TrackerState) : TrackerState :=
  es.foldl step st

end DynamicViewfinder

/-- The feature-detected capability surface: which vendor form of
`getUserMedia` the `navigator` object carries. -/
structure Navigator where
  getUserMedia : Bool
  webkitGetUserMedia : Bool
  mozGetUserMedia : Bool
deriving DecidableEq, Repr

/-- `userMediaFeatureExists`: any vendor form of `getUserMedia` present. -/
def userMediaFeatureExists (nav : Navigator) : Bool :=
  nav.getUserMedia || nav.webkitGetUserMedia || nav.mozGetUserMedia

/-- The options object after `setOptions` merged caller overrides into the
default `{ dynamicViewfinder: false }`. -/
structure SCOptions where
  dynamicViewfinder : Bool
deriving DecidableEq, Repr

/-- The caller-supplied options argument: each property may be absent. -/
structure SCOptionsArg where
  dynamicViewfinder : Option Bool
deriving DecidableEq, Repr

/-- `merge` / `$.extend`: caller-supplied properties override the target's. -/
def mergeOptions (target : SCOptions) (o : SCOptionsArg) : SCOptions :=
  { dynamicViewfinder := o.dynamicViewfinder.getD target.dynamicViewfinder }

/-- The instance fields a `SayCheese` object carries after construction
(`this.viewfinder`, `this.snapshots`, `this.canvas`, `this.context`,
`this.video`, `this.options`, `this.element`).  Canvas and context are kept
opaque (an identifier), the video element is `none` until `createVideo`
runs, and afterwards carries the current frame it can be sampled at. -/
structure SayCheese where
  viewfinder : Box
  snapshots : List Snapshot
  canvas : Option Nat
  context : Option Nat
  video : Option Frame
  options : SCOptions
  element : Nat

/-- The `SayCheese` constructor: when the user-media capability exists it
initialises every instance field (options merged over the defaults by
`setOptions`); otherwise it throws
`Error("getUserMedia() is not supported in this browser")` before any
field assignment, so no instance is produced. -/
def SayCheese.construct (nav : Navigator) (element : Nat)
    (options : SCOptionsArg) : Except String SayCheese :=
  if userMediaFeatureExists nav then
    Except.ok
      { viewfinder := emptyBox, snapshots := [], canvas := none
        context := none, video := none
        options := mergeOptions { dynamicViewfinder := false } options
        element := element }
  else
    Except.error "getUserMedia() is not supported in this browser"

/-- `takeSnapshot` as an operation on the instance: crop the current video
frame `f` to the committed viewfinder and push the result onto
`this.snapshots`.  Nothing else on the instance is written (the canvas and
context created for the snapshot are locals). -/
def SayCheese.takeSnapshotOp (st : SayCheese) (f : Frame) : SayCheese :=
  { st with snapshots := st.snapshots ++ [takeSnapshot f st.viewfinder] }

/-- The identifiers bound in the scope chain enclosing the `stop` method:
the IIFE's parameter `$` and its local declarations.  No binding named
`video` exists anywhere on this chain. -/
inductive ScopeName where
  | dollar
  | sayCheeseVar
  | userMediaFeatureExistsFn
  | eventCoordsFn
  | videoIdent
deriving DecidableEq, Repr

/-- The declarations visible from inside `SayCheese.prototype.stop`. -/
def enclosingScope : List ScopeName :=
  [.dollar, .sayCheeseVar, .userMediaFeatureExistsFn, .eventCoordsFn]

/-- Bare-identifier resolution against the enclosing scope chain. -/
def identInScope (n : ScopeName) : Bool :=
  enclosingScope.contains n

/-- The page document: `document.body`'s children, named. -/
structure Document where
  bodyChildren : List ScopeName
deriving DecidableEq, Repr

/-- `SayCheese.prototype.stop`: first `this.video = null`, then
`document.body.removeChild(video)`.  Evaluating the bare identifier `video`
resolves it against the scope chain; since no such binding exists, the
evaluation throws a `ReferenceError` before `removeChild` is invoked, so
the document is untouched.  (The unreachable branch models the removal the
line would perform if `video` did resolve.)  The result carries the
post-state, the document, and the thrown error if any. -/
def SayCheese.stopOp (st : SayCheese) (doc : Document) :
    SayCheese × Document × Option String :=
  let st1 : SayCheese := { st with video := none }
  if identInScope .videoIdent then
    (st1, { bodyChildren := doc.bodyChildren.erase .videoIdent }, none)
  else
    (st1, doc, some "ReferenceError: video is not defined")

open DynamicViewfinder

lemma runEvents_cons (e : DragEv) (es : List DragEv) (st : TrackerState) :
    runEvents (e :: es) st = runEvents es (step st e) := rfl

lemma runEvents_append (xs ys : List DragEv) (st : TrackerState) :
    runEvents (xs ++ ys) st = runEvents ys (runEvents xs st) := by
  simp [runEvents]

/-- While a drag is active, a run of `updateDrag` events leaves everything
but `box.width`/`box.height` alone, and those end up computed from the last
point of the run and the (untouched) anchor. -/
lemma run_updates (qs : List (Int × Int)) (q : Int × Int) :
    ∀ st : TrackerState, st.isDragging = true →
      runEvents ((qs ++ [q]).map (fun p => DragEv.updateDrag p.1 p.2)) st =
        { st with box := { st.box with
            width := jsSub (some q.1) st.box.startX
            height := jsSub (some q.2) st.box.startY } } := by
  induction qs with
  | nil =>
      intro st h
      cases st with
      | mk d b v c => cases b; simp_all [runEvents, step]
  | cons a qs ih =>
      intro st h
      have hstep : (step st (.updateDrag a.1 a.2)).isDragging = true := by
        cases st with
        | mk d b v c => simp_all [step]
      rw [show ((a :: qs) ++ [q]) = a :: (qs ++ [q]) from rfl, List.map_cons,
        runEvents_cons, ih _ hstep]
      cases st with
      | mk d b v c => cases b; simp_all [step]

/-- C1 (counterexample): in the spec's own scenario
`begin(100,50) → update(40,50) → end(40,200)` the committed rectangle has
`height = 0` (set by the last `updateDrag`), not the `height = 150` the
claim demands, so the claimed commit-time extents `end − start` are false
on the code. -/
theorem commit_scenario_refutes_end_extents :
    (runEvents [.beginDrag 100 50, .updateDrag 40 50, .endDrag 40 200]
        (initTracker 640 480)).viewfinder ≠
      { startX := some 100, startY := some 50, endX := some 40
        endY := some 200, width := some (-60), height := some 150 } := by
  decide

/-- C1 (amended): for a drag `begin(p0) → update(p1) … update(p(n-1)) →
end(pn)` with at least one update, the committed rectangle keeps the raw
anchor `p0` and end point `pn` with no canonicalization, while its signed
extents come from the *last update* point: `width = p(n-1).x − p0.x`,
`height = p(n-1).y − p0.y` (the `stop` handler does not recompute them from
the end point). -/
theorem commit_extents_from_last_update (w h x0 y0 xl yl xn yn : Int)
    (us : List (Int × Int)) :
    (runEvents (.beginDrag x0 y0 ::
        ((us ++ [(xl, yl)]).map (fun p => DragEv.updateDrag p.1 p.2) ++
          [.endDrag xn yn]))
      (initTracker w h)).viewfinder =
    { startX := some x0, startY := some y0, endX := some xn, endY := some yn
      width := some (xl - x0), height := some (yl - y0) } := by
  rw [runEvents_cons, runEvents_append,
    run_updates us (xl, yl) (step (initTracker w h) (.beginDrag x0 y0)) rfl]
  simp [runEvents, step, initTracker, emptyBox, jsSub,
    TrackerState.viewfinder]

/-- C2 (counterexample): after the committed gesture
`begin(1,2) → update(3,4) → end(5,6)` the live rectangle has
`startX = 1`, but the very next `beginDrag(10,20)` — before any `endDrag` —
changes the committed rectangle's `startX` to `10`, because the commit
aliased `this.viewfinder` to the shared drag `box`. -/
theorem committed_rect_changed_by_next_begin :
    ((runEvents [.beginDrag 1 2, .updateDrag 3 4, .endDrag 5 6]
        (initTracker 640 480)).viewfinder.startX = some 1) ∧
    ((runEvents [.beginDrag 1 2, .updateDrag 3 4, .endDrag 5 6,
          .beginDrag 10 20]
        (initTracker 640 480)).viewfinder.startX = some 10) := by
  decide

/-- C2 (amended): every `endDrag` makes `this.viewfinder` alias the single
drag `box` that is shared across gestures, so the next gesture's
`beginDrag` mutates the previously committed rectangle's `startX`/`startY`
in place, before any subsequent `endDrag`. -/
theorem begin_after_commit_mutates_committed_rect (st : TrackerState)
    (qx qy px py : Int) :
    ((step st (.endDrag qx qy)).viewfinderRef = none) ∧
    ((step (step st (.endDrag qx qy)) (.beginDrag px py)).viewfinder =
      { (step st (.endDrag qx qy)).viewfinder with
        startX := some px, startY := some py }) := by
  cases st with
  | mk d b v c => cases b; simp [step, TrackerState.viewfinder]

/-- C3 (counterexample): an `endDrag(5,5)` on a fresh tracker, with no
prior `beginDrag`, replaces the committed rectangle (the full-surface
default becomes the mostly-undefined drag box) and emits a `change`
notification — it is not a no-op. -/
theorem stray_endDrag_not_noop :
    ((runEvents [.endDrag 5 5] (initTracker 640 480)).viewfinder ≠
      (initTracker 640 480).viewfinder) ∧
    ((runEvents [.endDrag 5 5] (initTracker 640 480)).changeCount = 1) := by
  decide

/-- C3 (amended): `endDrag` with no active drag session throws nothing, but
it is not a no-op: it writes the point into `box.endX`/`box.endY`, commits
the drag box as `this.viewfinder`, and emits a `change` notification (the
`stop` handler never checks `isDragging`). -/
theorem stray_endDrag_commits_and_notifies (st : TrackerState) (x y : Int)
    (h : st.isDragging = false) :
    step st (.endDrag x y) =
      { st with
        isDragging := false
        box := { st.box with endX := some x, endY := some y }
        viewfinderRef := none
        changeCount := st.changeCount + 1 } := by
  cases st with
  | mk d b v c => cases b; simp [step]

/-- Witness for `stray_endDrag_commits_and_notifies` at a fresh tracker. -/
theorem stray_endDrag_commits_and_notifies_witness :
    ((initTracker 640 480).isDragging = false) ∧
    (step (initTracker 640 480) (.endDrag 5 5) =
      { initTracker 640 480 with
        isDragging := false
        box := { (initTracker 640 480).box with
          endX := some 5, endY := some 5 }
        viewfinderRef := none
        changeCount := (initTracker 640 480).changeCount + 1 }) :=
  ⟨by decide, stray_endDrag_commits_and_notifies (initTracker 640 480) 5 5
    (by decide)⟩

/-- C6 (code evaluation at the failing input): with a drag session active
and anchored at `(100,50)`, a second `beginDrag(10,20)` is not ignored — it
overwrites the session's anchor with the new point (and leaves the session
active), corrupting the in-flight rectangle. -/
theorem double_begin_overwrites_anchor :
    ((runEvents [.beginDrag 100 50] (initTracker 640 480)).isDragging
        = true) ∧
    ((runEvents [.beginDrag 100 50] (initTracker 640 480)).box.startX
        = some 100) ∧
    ((runEvents [.beginDrag 100 50, .beginDrag 10 20]
        (initTracker 640 480)).box.startX = some 10) ∧
    ((runEvents [.beginDrag 100 50, .beginDrag 10 20]
        (initTracker 640 480)).box.startY = some 20) ∧
    ((runEvents [.beginDrag 100 50, .beginDrag 10 20]
        (initTracker 640 480)).isDragging = true) := by
  decide

lemma natAbs_sub_swap (a b : Int) : (a - b).natAbs = (b - a).natAbs := by
  omega

/-- Swapping a rectangle's anchor and end point (and negating its signed
extents accordingly) yields the same snapshot: `takeSnapshot` only uses
`min(startX, endX)`, `min(startY, endY)`, `abs(width)` and `abs(height)`. -/
lemma takeSnapshot_swapped (f : Frame) (sx sy ex ey : Int) :
    takeSnapshot f ⟨some sx, some sy, some ex, some ey,
      some (ex - sx), some (ey - sy)⟩ =
    takeSnapshot f ⟨some ex, some ey, some sx, some sy,
      some (sx - ex), some (sy - ey)⟩ := by
  dsimp only [takeSnapshot, jsAbs, jsMin]
  rw [natAbs_sub_swap ex sx, natAbs_sub_swap ey sy, min_comm sx ex,
    min_comm sy ey]

/-- C4 (confirmed): snapshot extraction is canonicalization-invariant —
`takeSnapshot` reads the source at crop origin
`(min(startX, endX), min(startY, endY))`, so the gesture dragging from `a`
to `b` and the opposite gesture dragging from `b` to `a` commit rectangles
whose extracted snapshots are identical (same dimensions, same pixel
content). -/
theorem extract_direction_invariant (w h ax ay bx bY : Int) (f : Frame) :
    takeSnapshot f
      ((runEvents [.beginDrag ax ay, .updateDrag bx bY, .endDrag bx bY]
        (initTracker w h)).viewfinder) =
    takeSnapshot f
      ((runEvents [.beginDrag bx bY, .updateDrag ax ay, .endDrag ax ay]
        (initTracker w h)).viewfinder) := by
  have h1 : (runEvents [.beginDrag ax ay, .updateDrag bx bY, .endDrag bx bY]
      (initTracker w h)).viewfinder =
      ⟨some ax, some ay, some bx, some bY,
        some (bx - ax), some (bY - ay)⟩ := rfl
  have h2 : (runEvents [.beginDrag bx bY, .updateDrag ax ay, .endDrag ax ay]
      (initTracker w h)).viewfinder =
      ⟨some bx, some bY, some ax, some ay,
        some (ax - bx), some (ay - bY)⟩ := rfl
  rw [h1, h2]
  exact takeSnapshot_swapped f ax ay bx bY

/-- C5 (confirmed): for every rectangle with finite extents, the extracted
snapshot's dimensions are `abs(width)` and `abs(height)`; when either
extent is zero the snapshot has zero area — a valid result, not an
error. -/
theorem snapshot_dims_abs_of_rect (f : Frame) (r : Box) (w h : Int)
    (hw : r.width = some w) (hh : r.height = some h) :
    ((takeSnapshot f r).width = w.natAbs) ∧
    ((takeSnapshot f r).height = h.natAbs) ∧
    ((w = 0 ∨ h = 0) →
      (takeSnapshot f r).width * (takeSnapshot f r).height = 0) := by
  have h1 : (takeSnapshot f r).width = w.natAbs := by
    show toCanvasSize (jsAbs r.width) = w.natAbs
    rw [hw]
    simp only [jsAbs, toCanvasSize]
    omega
  have h2 : (takeSnapshot f r).height = h.natAbs := by
    show toCanvasSize (jsAbs r.height) = h.natAbs
    rw [hh]
    simp only [jsAbs, toCanvasSize]
    omega
  refine ⟨h1, h2, fun hz => ?_⟩
  rw [h1, h2]
  rcases hz with hz | hz <;> simp [hz]

/-- Witness for `snapshot_dims_abs_of_rect` on a rectangle with
`width = -3`, `height = 4`. -/
theorem snapshot_dims_abs_of_rect_witness :
    ((⟨some 1, some 2, some 5, some 9, some (-3), some 4⟩ : Box).width
        = some (-3)) ∧
    ((⟨some 1, some 2, some 5, some 9, some (-3), some 4⟩ : Box).height
        = some 4) ∧
    (((takeSnapshot ⟨4, 4, fun _ _ => 7⟩
          ⟨some 1, some 2, some 5, some 9, some (-3), some 4⟩).width
        = Int.natAbs (-3)) ∧
      ((takeSnapshot ⟨4, 4, fun _ _ => 7⟩
          ⟨some 1, some 2, some 5, some 9, some (-3), some 4⟩).height
        = Int.natAbs 4) ∧
      (((-3 : Int) = 0 ∨ (4 : Int) = 0) →
        (takeSnapshot ⟨4, 4, fun _ _ => 7⟩
            ⟨some 1, some 2, some 5, some 9, some (-3), some 4⟩).width *
          (takeSnapshot ⟨4, 4, fun _ _ => 7⟩
            ⟨some 1, some 2, some 5, some 9, some (-3), some 4⟩).height
          = 0)) :=
  ⟨rfl, rfl,
    snapshot_dims_abs_of_rect ⟨4, 4, fun _ _ => 7⟩
      ⟨some 1, some 2, some 5, some 9, some (-3), some 4⟩ (-3) 4 rfl rfl⟩

/-- C7 (confirmed): extraction never reads out of bounds — every painted
pixel of a snapshot is a pixel of the source frame at in-bounds
coordinates; pixels of the crop rectangle that fall outside the source
frame are simply left unpainted (the copy is clipped to the intersection),
and the embedding is a total function, so no error is possible. -/
theorem extract_reads_only_in_bounds (f : Frame) (r : Box) (dx dy : Nat)
    (c : Nat) (hp : (takeSnapshot f r).pixel dx dy = some c) :
    ∃ x y : Nat, x < f.width ∧ y < f.height ∧ c = f.pixel x y := by
  dsimp only [takeSnapshot, drawImageNoScale] at hp
  cases h1 : jsMin r.startX r.endX with
  | none => rw [h1] at hp; simp at hp
  | some sxv =>
      cases h2 : jsMin r.startY r.endY with
      | none => rw [h1, h2] at hp; simp at hp
      | some syv =>
          rw [h1, h2] at hp
          dsimp only at hp
          split_ifs at hp with hc
          obtain ⟨_, _, hx0, hxw, hy0, hyh⟩ := hc
          refine ⟨(sxv + dx).toNat, (syv + dy).toNat, ?_, ?_, ?_⟩
          · omega
          · omega
          · exact (Option.some.inj hp).symm

/-- Witness for `extract_reads_only_in_bounds` on a 4×4 solid frame. -/
theorem extract_reads_only_in_bounds_witness :
    ((takeSnapshot ⟨4, 4, fun _ _ => 7⟩
        ⟨some 0, some 0, some 2, some 2, some 2, some 2⟩).pixel 0 0
      = some 7) ∧
    (∃ x y : Nat, x < (⟨4, 4, fun _ _ => 7⟩ : Frame).width ∧
      y < (⟨4, 4, fun _ _ => 7⟩ : Frame).height ∧
      7 = (⟨4, 4, fun _ _ => 7⟩ : Frame).pixel x y) :=
  ⟨by decide, extract_reads_only_in_bounds ⟨4, 4, fun _ _ => 7⟩
    ⟨some 0, some 0, some 2, some 2, some 2, some 2⟩ 0 0 7 (by decide)⟩

/-- C8 (confirmed): when no vendor form of `getUserMedia` is present, the
constructor throws `Error("getUserMedia() is not supported in this
browser")` immediately — it produces no instance, so no instance state is
initialized and the failure cannot be deferred to first use. -/
theorem construct_throws_without_userMedia (nav : Navigator) (element : Nat)
    (options : SCOptionsArg) (h : userMediaFeatureExists nav = false) :
    SayCheese.construct nav element options =
      Except.error "getUserMedia() is not supported in this browser" := by
  simp [SayCheese.construct, h]

/-- Witness for `construct_throws_without_userMedia`: a navigator with none
of the three vendor forms. -/
theorem construct_throws_without_userMedia_witness :
    (userMediaFeatureExists ⟨false, false, false⟩ = false) ∧
    (SayCheese.construct ⟨false, false, false⟩ 0 ⟨none⟩ =
      Except.error "getUserMedia() is not supported in this browser") :=
  ⟨by decide, construct_throws_without_userMedia ⟨false, false, false⟩ 0
    ⟨none⟩ (by decide)⟩

/-- C9 (confirmed): `takeSnapshot` as an instance operation leaves the
viewfinder, options, video, on-screen canvas and context, and element
untouched, and appends exactly one snapshot — the crop of the current
frame — to the end of the snapshot collection, preserving the existing
elements in order. -/
theorem takeSnapshot_only_appends_snapshot (st : SayCheese) (f : Frame) :
    ((st.takeSnapshotOp f).viewfinder = st.viewfinder) ∧
    ((st.takeSnapshotOp f).options = st.options) ∧
    ((st.takeSnapshotOp f).video = st.video) ∧
    ((st.takeSnapshotOp f).canvas = st.canvas) ∧
    ((st.takeSnapshotOp f).context = st.context) ∧
    ((st.takeSnapshotOp f).element = st.element) ∧
    ((st.takeSnapshotOp f).snapshots =
      st.snapshots ++ [takeSnapshot f st.viewfinder]) := by
  simp [SayCheese.takeSnapshotOp]

/-- C10 (confirmed): `stop()` first nulls `this.video`, then evaluates the
bare identifier `video`, which is bound nowhere on the enclosing scope
chain — so it always throws a `ReferenceError` before `removeChild` runs:
the document keeps the video element, and the instance is left with
`video = null`. -/
theorem stop_throws_referenceError (st : SayCheese) (doc : Document) :
    SayCheese.stopOp st doc =
      ({ st with video := none }, doc,
        some "ReferenceError: video is not defined") := by
  have h : identInScope .videoIdent = false := by decide
  simp [SayCheese.stopOp, h]
